import Mathlib

/-!
Verification of the xai-ad-intelligence repository's core numeric and
control-flow logic against its specification.

The development shallowly embeds the two subsystems the claims are about:

* the Ensemble CTR Critic (`src/v0/critic_agent.py`, duplicated in
  `src/auth-agents/critic_agent/agent.py`): namespace `Critic`;
* the Tool-Calling Creative Orchestrator / Ad Remixer
  (`src/v0/ad_remixer.py`, `src/auth-agents/ad_remixer/agent.py`):
  namespace `Remixer`.

Python floats are modelled as rationals (`ℚ`) for the exact arithmetic the
spec states, except standard deviations, which are square roots and are
modelled in `ℝ` via `Real.sqrt`.  Every call to the external LLM gateway is
replaced by an oracle argument: an `Option`/sum value describing the one
response the call produced (`none` or a failure constructor standing for a
transport error or an unparsable body, exactly the cases the Python
`except` branches catch).
-/

namespace Helper

/-- Python's `statistics.mean`: sum divided by length.  `statistics.mean`
raises on an empty list; this total model returns 0 there, and every theorem
below that depends on the mean assumes a nonempty list. -/
def mean (v : List ℚ) : ℚ := v.sum / v.length

/-- Sum of squared deviations from the mean, the shared numerator of both
variance flavours. -/
def sumSqDev (v : List ℚ) : ℚ := (v.map fun x => (x - mean v) ^ 2).sum

/-- The Bessel-corrected sample variance (denominator `n - 1`), the square of
what Python's `statistics.stdev` computes. -/
def sampleVar (v : List ℚ) : ℚ := sumSqDev v / ((v.length : ℚ) - 1)

/-- Python's `statistics.stdev` (sample standard deviation, `n - 1`
denominator). -/
noncomputable def stdev (v : List ℚ) : ℝ := Real.sqrt (sampleVar v)

/-- The population variance (denominator `n`). -/
def popVar (v : List ℚ) : ℚ := sumSqDev v / (v.length : ℚ)

/-- The population standard deviation, the quantity the spec's words name
("aggregate mean and (population) standard deviation").  Used only to compare
the spec's statement with the code's `statistics.stdev`. -/
noncomputable def popStd (v : List ℚ) : ℝ := Real.sqrt (popVar v)

/-- Insertion step of the stable descending sort: `x` (an element earlier in
the input) is placed before the first element whose key is less than or equal
to `x`'s, so among equal keys earlier input elements stay first. -/
def insertDescBy (key : α → ℚ) (x : α) : List α → List α
  | [] => [x]
  | y :: ys => if key y ≤ key x then x :: y :: ys else y :: insertDescBy key x ys

/-- Stable sort, descending by `key`: the unique stable descending ordering,
which is what Python's `sorted(..., key=key, reverse=True)` and
`list.sort(key=key, reverse=True)` produce. -/
def sortDescBy (key : α → ℚ) : List α → List α
  | [] => []
  | x :: xs => insertDescBy key x (sortDescBy key xs)

theorem insertDescBy_perm (key : α → ℚ) (x : α) (l : List α) :
    (insertDescBy key x l).Perm (x :: l) := by
  induction l with
  | nil => exact List.Perm.refl _
  | cons y ys ih =>
    by_cases h : key y ≤ key x
    · simp [insertDescBy, h]
    · simp only [insertDescBy, h, if_neg, ite_false]
      exact (List.Perm.cons y ih).trans (List.Perm.swap x y ys)

theorem sortDescBy_perm (key : α → ℚ) (l : List α) :
    (sortDescBy key l).Perm l := by
  induction l with
  | nil => exact List.Perm.refl _
  | cons x xs ih =>
    exact (insertDescBy_perm key x (sortDescBy key xs)).trans (List.Perm.cons x ih)

/-- Descending (non-strict) sortedness with respect to a key. -/
def SortedDescBy (key : α → ℚ) (l : List α) : Prop :=
  l.Pairwise fun a b => key b ≤ key a

theorem insertDescBy_sorted (key : α → ℚ) (x : α) (l : List α)
    (hl : SortedDescBy key l) : SortedDescBy key (insertDescBy key x l) := by
  induction l with
  | nil => simp [insertDescBy, SortedDescBy]
  | cons y ys ih =>
    rcases List.pairwise_cons.mp hl with ⟨hy, hys⟩
    by_cases h : key y ≤ key x
    · rw [SortedDescBy, insertDescBy, if_pos h]
      refine List.pairwise_cons.mpr ⟨?_, hl⟩
      intro b hb
      rw [List.mem_cons] at hb
      rcases hb with rfl | hb
      · exact h
      · exact le_trans (hy _ hb) h
    · rw [SortedDescBy, insertDescBy, if_neg h]
      refine List.pairwise_cons.mpr ⟨?_, ih hys⟩
      intro b hb
      have hb' := (insertDescBy_perm key x ys).mem_iff.mp hb
      rw [List.mem_cons] at hb'
      rcases hb' with rfl | hb'
      · exact le_of_lt (lt_of_not_le h)
      · exact hy _ hb'

theorem sortDescBy_sorted (key : α → ℚ) (l : List α) :
    SortedDescBy key (sortDescBy key l) := by
  induction l with
  | nil => simp [sortDescBy, SortedDescBy]
  | cons x xs ih => exact insertDescBy_sorted key x _ ih

theorem insertDescBy_map (key : α → ℚ) (key' : β → ℚ) (f : α → β)
    (hk : ∀ a, key' (f a) = key a) (x : α) (l : List α) :
    (insertDescBy key x l).map f = insertDescBy key' (f x) (l.map f) := by
  induction l with
  | nil => simp [insertDescBy]
  | cons y ys ih =>
    by_cases h : key y ≤ key x
    · simp [insertDescBy, h, hk]
    · simp only [insertDescBy, h, ite_false, List.map_cons, ih, hk]

theorem sortDescBy_map (key : α → ℚ) (key' : β → ℚ) (f : α → β)
    (hk : ∀ a, key' (f a) = key a) (l : List α) :
    (sortDescBy key l).map f = sortDescBy key' (l.map f) := by
  induction l with
  | nil => simp [sortDescBy]
  | cons x xs ih =>
    simp only [sortDescBy, List.map_cons]
    rw [insertDescBy_map key key' f hk, ih]

theorem sum_map_add (l : List α) (f g : α → ℚ) :
    (l.map fun x => f x + g x).sum = (l.map f).sum + (l.map g).sum := by
  induction l with
  | nil => simp
  | cons a t ih => simp [ih]; ring

theorem sum_map_mul_const (l : List α) (f : α → ℚ) (c : ℚ) :
    (l.map fun x => f x * c).sum = (l.map f).sum * c := by
  induction l with
  | nil => simp
  | cons a t ih => simp [ih]; ring

end Helper

namespace Critic

open Helper

/-- The parsed body of one CTR simulation response, the triple the prompt
asks for: three scores that the model is told to keep in `[0, 1]` (nothing
enforces the bound, so the fields are unconstrained rationals). -/
structure EvalResult where
  click_probability : ℚ
  attention_score : ℚ
  relevance_score : ℚ
deriving DecidableEq

/-- The neutral triple substituted for a failed run
(`{"click_probability": 0.5, "attention_score": 0.5, "relevance_score": 0.5}`). -/
def neutralResult : EvalResult := ⟨0.5, 0.5, 0.5⟩

/-- Embeds `_eval_once`: the whole request/parse is one oracle value —
`some r` when the HTTP call succeeded and the (fence-stripped) body parsed as
JSON, `none` when anything raised; the `except` branch returns the neutral
triple. -/
def eval_once (outcome : Option EvalResult) : EvalResult :=
  outcome.getD neutralResult

/-- The `EnsembleCTRScore` dataclass.  Means are exact rationals, the two
standard-deviation fields are reals (square roots). -/
structure EnsembleCTRScore where
  ad_index : ℕ
  ad_text : String
  click_prob_mean : ℚ
  attention_mean : ℚ
  relevance_mean : ℚ
  ctr_mean : ℚ
  click_prob_std : ℝ
  ctr_std : ℝ
  num_runs : ℕ

noncomputable instance : Inhabited EnsembleCTRScore :=
  ⟨⟨0, "", 0, 0, 0, 0, 0, 0, 0⟩⟩

/-- The local `safe_std` helper of `_ensemble_eval`:
`statistics.stdev(v) if len(v) > 1 else 0.0`. -/
noncomputable def safe_std (v : List ℚ) : ℝ :=
  if 1 < v.length then stdev v else 0

/-- Embeds `_ensemble_eval`'s aggregation over the gathered per-run results.
`outcomes` is the list `asyncio.gather` returns, one entry per temperature,
in run order; each entry is the corresponding `_eval_once` oracle value.
The composite list mirrors the source's
`[c * 0.5 + a * 0.3 + r * 0.2 for c, a, r in zip(clicks, attns, rels)]`. -/
noncomputable def ensemble_eval (ad : String) (ad_idx : ℕ)
    (outcomes : List (Option EvalResult)) : EnsembleCTRScore :=
  let results := outcomes.map eval_once
  let clicks := results.map EvalResult.click_probability
  let attns := results.map EvalResult.attention_score
  let rels := results.map EvalResult.relevance_score
  let ctrs := (clicks.zip (attns.zip rels)).map fun p =>
    p.1 * 0.5 + p.2.1 * 0.3 + p.2.2 * 0.2
  { ad_index := ad_idx
    ad_text := ad
    click_prob_mean := mean clicks
    attention_mean := mean attns
    relevance_mean := mean rels
    ctr_mean := mean ctrs
    click_prob_std := safe_std clicks
    ctr_std := safe_std ctrs
    num_runs := results.length }

/-- Embeds `_ensemble_eval`'s fan-out for one candidate: the temperatures are
`[0.5 + i * 0.15 for i in range(ensemble_runs)]`, so exactly `ensemble_runs`
single evaluations are gathered, run `i`'s oracle outcome being `oracle i`. -/
noncomputable def ensemble_eval_runs (ad : String) (ad_idx : ℕ)
    (ensemble_runs : ℕ) (oracle : ℕ → Option EvalResult) : EnsembleCTRScore :=
  ensemble_eval ad ad_idx ((List.range ensemble_runs).map oracle)

/-- The `CTRPredictionResult` dataclass. -/
structure CTRPredictionResult where
  user_id : String
  best_ad_index : ℕ
  best_ad_text : String
  confidence : ℝ
  scores : List EnsembleCTRScore
  total_simulations : ℕ

/-- The confidence computation of `predict_async` (lines 258-262 of
`src/v0/critic_agent.py`), applied to the already-sorted score list. -/
noncomputable def confidenceOf (scores : List EnsembleCTRScore) : ℝ :=
  match scores with
  | s0 :: s1 :: _ =>
    let gap : ℚ := s0.ctr_mean - s1.ctr_mean
    let consistency : ℝ := 1 - min (s0.ctr_std * 2) 0.4
    min ((0.4 + (gap : ℝ) * 2) * consistency + 0.2) 0.95
  | _ => 0.7

/-- The confidence formula for two or more candidates, as a function of the
winning gap and the winner's consistency. -/
noncomputable def confFormula (gap consistency : ℝ) : ℝ :=
  min ((0.4 + gap * 2) * consistency + 0.2) 0.95

/-- Embeds `predict_async` after the ad texts are extracted: each candidate
is evaluated by its ensemble (the oracle is keyed by the ad's text and the
run index, since the request a run sends depends on exactly those within one
prediction), the scores are stable-sorted descending by `ctr_mean`, the best
ad is read off the head of the sorted list, and the confidence from the top
two entries.  The source indexes `scores[0]` and so raises on an empty
candidate list; the claims are therefore read over nonempty input. -/
noncomputable def predict_async (user_id : String) (ads : List String)
    (ensemble_runs : ℕ) (oracle : String → ℕ → Option EvalResult) :
    CTRPredictionResult :=
  let raw := ads.enum.map fun p => ensemble_eval_runs p.2 p.1 ensemble_runs (oracle p.2)
  let scores := sortDescBy EnsembleCTRScore.ctr_mean raw
  { user_id := user_id
    best_ad_index := scores.headI.ad_index
    best_ad_text := scores.headI.ad_text
    confidence := confidenceOf scores
    scores := scores
    total_simulations := (scores.map EnsembleCTRScore.num_runs).sum }

end Critic

namespace Remixer

open Helper

/-- Python's `str.strip(chars)` on both ends of a character list. -/
def pyStripList (p : Char → Bool) (cs : List Char) : List Char :=
  ((cs.dropWhile p).reverse.dropWhile p).reverse

/-- Python's `str.strip(chars)`: drop the characters satisfying `p` from both
ends.  `str.strip()` with no argument strips whitespace (modelled with
`Char.isWhitespace`). -/
def pyStrip (p : Char → Bool) (s : String) : String :=
  ⟨pyStripList p s.data⟩

/-- The content clean-up of the tool-calling loop (lines 537-541 of
`src/v0/ad_remixer.py`): strip whitespace, strip double then single quotes,
and when the result starts with a code fence and has more than two lines,
keep the lines strictly between the first and the last. -/
def cleanContent (raw : String) : String :=
  let c := pyStrip Char.isWhitespace raw
  let c := pyStrip (fun ch => ch = '\'') (pyStrip (fun ch => ch = '"') c)
  if c.startsWith "```" then
    let lines := c.splitOn "\n"
    if 2 < lines.length then String.intercalate "\n" ((lines.drop 1).dropLast) else c
  else c

/-- One iteration's free-text handling: when the response carried non-empty
content, clean it, and when the cleaned text is non-empty it becomes the
running ad copy (stripped once more); otherwise the previous copy stays. -/
def updateCopy (cur : String) (raw : String) : String :=
  if raw ≠ "" then
    let c := cleanContent raw
    if c ≠ "" then pyStrip Char.isWhitespace c else cur
  else cur

/-- The parsed arguments of one `generate_ad_image` tool call; each field via
`args.get(key, "")`. -/
structure ToolArgs where
  image_prompt : String
  ad_copy : String
  enhancement_notes : String

/-- One tool call of a model response: its function name, its arguments
(`none` when `json.loads` on the argument string raises) and, as an oracle
value, the URL `_generate_ad_image` returned for it (`none` = the image call
failed). -/
structure ToolCallEv where
  fname : String
  args : Option ToolArgs
  gen_result : Option String

/-- One iteration of the agent loop as the outside world presents it:
`failure` when `chat.sample()` (or anything in the try body, such as argument
parsing) raised, else the response's free text, tool calls and whether the
finish reason signalled stop. -/
inductive ChatEvent where
  | failure
  | reply (content : String) (tool_calls : List ToolCallEv) (finish_stop : Bool)

/-- The mutable locals of `_rewrite_ad_variant`'s loop. -/
structure VariantState where
  ad_copy : String
  enhanced_image_url : Option String
  image_prompt_used : String
  enhancement_notes : String

def initState : VariantState := ⟨"", none, "", ""⟩

/-- The `for tc in tool_calls` body: only calls named `generate_ad_image` act;
argument-parse failure raises (second component `true`), ending the whole
loop; otherwise the image prompt and notes are recorded, a non-empty tool-call
`ad_copy` replaces the running copy, and the image-generation result (the
oracle value carried by the call) becomes the enhanced image URL. -/
def processToolCalls : VariantState → List ToolCallEv → VariantState × Bool
  | st, [] => (st, false)
  | st, tc :: rest =>
    if tc.fname = "generate_ad_image" then
      match tc.args with
      | none => (st, true)
      | some a =>
        processToolCalls
          { ad_copy := if a.ad_copy ≠ "" then a.ad_copy else st.ad_copy
            enhanced_image_url := tc.gen_result
            image_prompt_used := a.image_prompt
            enhancement_notes := a.enhancement_notes } rest
    else processToolCalls st rest

/-- The bounded agent loop (`for iteration in range(max_iterations)` with
`max_iterations = 3`): each iteration consumes one event; an exception breaks,
a response with no tool calls breaks (both arms of the finish-reason check at
lines 574-576 break), a response with tool calls processes them and loops.
An exhausted event list stands for a call that never returns another
response and also breaks. -/
def runLoop : List ChatEvent → ℕ → VariantState → VariantState
  | _, 0, st => st
  | [], _ + 1, st => st
  | ChatEvent.failure :: _, _ + 1, st => st
  | ChatEvent.reply content tcs _stop :: rest, n + 1, st =>
    let st1 := { st with ad_copy := updateCopy st.ad_copy content }
    if tcs.isEmpty then st1
    else
      match processToolCalls st1 tcs with
      | (st2, true) => st2
      | (st2, false) => runLoop rest n st2

/-- An image record as `_score_image_ctr` sees it: the dict built at the call
site plus the score fields the function may add.  `itype` is the source's
`type` key. -/
structure ImgRec where
  url : Option String
  itype : String
  variant_num : ℕ
  ctr_score : Option ℚ
  ctr_reasoning : Option String

/-- One element of the parsed score array; each field read with `.get` and a
default, so missing keys are `none`. -/
structure ScoreEntry where
  image_index : Option ℤ
  ctr_score : Option ℚ
  reasoning : Option String

/-- The outcome of the vision-scoring call: the parsed JSON array, or
`failure` when the transport or the JSON parse raised. -/
inductive ScoreOutcome where
  | failure
  | success (entries : List ScoreEntry)

/-- Python truthiness of an `Optional[str]`: `None` and the empty string are
falsy. -/
def truthyStr : Option String → Bool
  | none => false
  | some s => !(s == "")

/-- Setting `valid_images[idx]["ctr_score"]` and `["ctr_reasoning"]`. -/
def setImgScore : List ImgRec → ℕ → ℚ → String → List ImgRec
  | [], _, _, _ => []
  | r :: rest, 0, sc, rs => { r with ctr_score := some sc, ctr_reasoning := some rs } :: rest
  | r :: rest, n + 1, sc, rs => r :: setImgScore rest n sc rs

/-- The `for score_data in scores` loop: attach each entry's score to the
image its 1-based `image_index` names, ignoring out-of-range indices. -/
def applyScores (entries : List ScoreEntry) (valid : List ImgRec) : List ImgRec :=
  entries.foldl
    (fun acc e =>
      let idx : ℤ := e.image_index.getD 0 - 1
      if 0 ≤ idx ∧ idx < (acc.length : ℤ) then
        setImgScore acc idx.toNat (e.ctr_score.getD 50) (e.reasoning.getD "")
      else acc)
    valid

/-- Embeds `_score_image_ctr` of `src/v0/ad_remixer.py`: empty input returns
`[]`; images without a (truthy) URL are filtered out, and when none is left
the input is returned untouched; on a successful call the parsed entries are
attached by index and the valid images are stable-sorted descending by
`ctr_score` (default 0); on a failed call every valid image gets the default
score 50 with reasoning "Scoring unavailable", in the input order (the sort
only happens in the success branch). -/
def score_image_ctr (images : List ImgRec) (outcome : ScoreOutcome) : List ImgRec :=
  if images.isEmpty then []
  else
    let valid := images.filter fun i => truthyStr i.url
    if valid.isEmpty then images
    else
      match outcome with
      | ScoreOutcome.success entries =>
        sortDescBy (fun i => i.ctr_score.getD 0) (applyScores entries valid)
      | ScoreOutcome.failure =>
        valid.map fun i =>
          { i with ctr_score := some 50, ctr_reasoning := some "Scoring unavailable" }

/-- The `CTRScore` dataclass. -/
structure CTRScore where
  image_type : String
  score : ℚ
  reasoning : String
deriving DecidableEq

/-- The `CTRComparison` dataclass. -/
structure CTRComparison where
  winner : String
  winner_score : ℚ
  winner_reasoning : String
  all_scores : List CTRScore
deriving DecidableEq

/-- The `AdVariant` dataclass. -/
structure AdVariant where
  content : String
  image_uri : Option String
  enhanced_image_uri : Option String
  original_image_uri : Option String
  image_prompt : String
  enhancement_notes : String
  ctr_comparison : Option CTRComparison

/-- Embeds `_rewrite_ad_variant` (lines 486-631 of `src/v0/ad_remixer.py`):
run the bounded loop, fall back to the original ad text when no copy was
produced, and — when an original image, an enhanced image and non-empty copy
all exist — score the pair of images and take the head of the returned list
as the chosen image, recording the full comparison. -/
def rewrite_ad_variant (ad : String) (variant_num : ℕ)
    (original_image_url : Option String) (events : List ChatEvent)
    (scoring : ScoreOutcome) : AdVariant :=
  let st := runLoop events 3 initState
  let ad_copy := if st.ad_copy = "" then ad else st.ad_copy
  if truthyStr original_image_url && truthyStr st.enhanced_image_url
      && !(ad_copy == "") then
    let images : List ImgRec :=
      [⟨original_image_url, "original", variant_num, none, none⟩,
       ⟨st.enhanced_image_url, "enhanced", variant_num, none, none⟩]
    match score_image_ctr images scoring with
    | [] =>
      { content := ad_copy, image_uri := st.enhanced_image_url,
        enhanced_image_uri := st.enhanced_image_url,
        original_image_uri := original_image_url,
        image_prompt := st.image_prompt_used,
        enhancement_notes := st.enhancement_notes, ctr_comparison := none }
    | best :: rest =>
      { content := ad_copy, image_uri := best.url,
        enhanced_image_uri := st.enhanced_image_url,
        original_image_uri := original_image_url,
        image_prompt := st.image_prompt_used,
        enhancement_notes := st.enhancement_notes,
        ctr_comparison := some
          { winner := best.itype, winner_score := best.ctr_score.getD 0,
            winner_reasoning := best.ctr_reasoning.getD "",
            all_scores := (best :: rest).map fun i =>
              ⟨i.itype, i.ctr_score.getD 0, i.ctr_reasoning.getD ""⟩ } }
  else
    { content := ad_copy, image_uri := st.enhanced_image_url,
      enhanced_image_uri := st.enhanced_image_url,
      original_image_uri := original_image_url,
      image_prompt := st.image_prompt_used,
      enhancement_notes := st.enhancement_notes, ctr_comparison := none }

/-- The JSON object `_select_best_ad` yields to its caller, keeping only the
keys any caller reads; a successful parse can carry any shape, so each field
is optional. -/
structure SelJson where
  selected_ad_index : Option ℤ
  selected_ad_text : Option String
  reasoning : Option String
deriving DecidableEq

/-- The outcome of the selection call: the parsed JSON object, or `failure`
when the transport or `json.loads` raised. -/
inductive SelectOutcome where
  | failure
  | success (j : SelJson)

/-- Embeds `_select_best_ad` of `src/auth-agents/ad_remixer/agent.py`
(lines 460-503): a successful parse is returned as is; any error falls back
to index 0, the first candidate (empty string when there is none) and the
fixed reasoning. -/
def select_best_ad (ads : List String) (outcome : SelectOutcome) : SelJson :=
  match outcome with
  | SelectOutcome.success j => j
  | SelectOutcome.failure =>
    { selected_ad_index := some 0
      selected_ad_text := some (ads.headD "")
      reasoning := some "Fallback due to error" }

/-- Embeds the front of `remix_ads_async` (lines 744-772 of
`src/auth-agents/ad_remixer/agent.py`) up to and including the selection
step: an empty ad list raises `ValueError("At least one ad is required")`
before the HTTP client is even created — the selection oracle is never
consulted; more than 5 ads are truncated to the first 5; the selected ad
text defaults to the (truncated) list's first entry. -/
def remix_ads_run (ads : List String) (sel : SelectOutcome) :
    Except String (String × SelJson) :=
  if ads.isEmpty then Except.error "At least one ad is required"
  else
    let ads5 := if 5 < ads.length then ads.take 5 else ads
    let selection := select_best_ad ads5 sel
    Except.ok (selection.selected_ad_text.getD (ads5.headD ""), selection)

end Remixer

namespace Critic

open Helper

theorem ensemble_eval_congr (ad : String) (ad_idx : ℕ)
    (o₁ o₂ : List (Option EvalResult))
    (h : o₁.map eval_once = o₂.map eval_once) :
    ensemble_eval ad ad_idx o₁ = ensemble_eval ad ad_idx o₂ := by
  simp only [ensemble_eval]
  rw [h]

/-- C3: the ensemble fan-out gathers exactly one result per configured run
(the temperature list has `ensemble_runs` entries), and a failed run is
replaced by the neutral default inside `_eval_once`, so `num_runs` is always
the configured ensemble size whatever the per-run outcomes — even when every
run fails.  The size must be positive for the source to return at all
(`statistics.mean` raises on an empty list). -/
theorem c3_run_count_invariant (ad : String) (ad_idx ensemble_runs : ℕ)
    (oracle : ℕ → Option EvalResult) (hpos : 0 < ensemble_runs) :
    (ensemble_eval_runs ad ad_idx ensemble_runs oracle).num_runs = ensemble_runs := by
  simp [ensemble_eval_runs, ensemble_eval]

/-- C3 witness: three runs, every one of which fails. -/
theorem c3_run_count_invariant_witness :
    (ensemble_eval_runs "ad" 0 3 fun _ => none).num_runs = 3 :=
  c3_run_count_invariant "ad" 0 3 (fun _ => none) (by norm_num)

/-- C9: within one candidate's fan-out, a run that fails contributes exactly
the neutral triple — the whole aggregate is the one obtained by replacing
that run's outcome with a successful `{0.5, 0.5, 0.5}` response — and runs
other than the failed one are untouched (the two oracles agree off `k`),
so a failure neither aborts nor alters sibling runs. -/
theorem c9_failed_run_neutral_and_isolated (ad : String) (ad_idx n k : ℕ)
    (o o' : ℕ → Option EvalResult)
    (hk : o k = none) (hk' : o' k = some neutralResult)
    (hother : ∀ j, j ≠ k → o j = o' j) :
    ensemble_eval_runs ad ad_idx n o = ensemble_eval_runs ad ad_idx n o' := by
  unfold ensemble_eval_runs
  apply ensemble_eval_congr
  rw [List.map_map, List.map_map]
  apply List.map_congr_left
  intro j _
  by_cases hj : j = k
  · subst hj
    simp [Function.comp, hk, hk', eval_once]
  · simp [Function.comp, hother j hj]

/-- C9 witness: two runs, the first fails, the second parses to a concrete
non-neutral triple; the aggregate matches the one where the first run
succeeded with the neutral triple. -/
theorem c9_failed_run_neutral_and_isolated_witness :
    ensemble_eval_runs "ad" 0 2
        (fun j => match j with | 0 => none | _ + 1 => some ⟨1, 0, 0⟩)
      = ensemble_eval_runs "ad" 0 2
        (fun j => match j with | 0 => some neutralResult | _ + 1 => some ⟨1, 0, 0⟩) :=
  c9_failed_run_neutral_and_isolated "ad" 0 2 0 _ _ rfl rfl
    (fun j hj => by cases j with
      | zero => exact absurd rfl hj
      | succ m => rfl)

theorem ensemble_ctrs_eq (results : List EvalResult) :
    ((results.map EvalResult.click_probability).zip
        ((results.map EvalResult.attention_score).zip
          (results.map EvalResult.relevance_score))).map
      (fun p => p.1 * 0.5 + p.2.1 * 0.3 + p.2.2 * 0.2)
      = results.map fun r =>
          r.click_probability * 0.5 + r.attention_score * 0.3 + r.relevance_score * 0.2 := by
  rw [List.zip_map', List.zip_map', List.map_map]
  rfl

/-- The per-run composite CTR list of an outcome list, as the spec describes
it (one composite per run, derived from that run's own triple). -/
def ctrsOf (outcomes : List (Option EvalResult)) : List ℚ :=
  (outcomes.map eval_once).map fun r =>
    r.click_probability * 0.5 + r.attention_score * 0.3 + r.relevance_score * 0.2

/-- The per-run click values of an outcome list. -/
def clicksOf (outcomes : List (Option EvalResult)) : List ℚ :=
  (outcomes.map eval_once).map EvalResult.click_probability

/-- C4: the aggregated `ctr_mean` is the mean of the per-run composites
`0.5·click + 0.3·attention + 0.2·relevance`, and by linearity of the mean it
equals the same weighted combination of the three per-component means
computed from the same runs. -/
theorem c4_ctr_mean_linearity (ad : String) (ad_idx : ℕ)
    (outcomes : List (Option EvalResult)) (h : outcomes ≠ []) :
    (ensemble_eval ad ad_idx outcomes).ctr_mean = mean (ctrsOf outcomes) ∧
    (ensemble_eval ad ad_idx outcomes).ctr_mean
      = 0.5 * (ensemble_eval ad ad_idx outcomes).click_prob_mean
        + 0.3 * (ensemble_eval ad ad_idx outcomes).attention_mean
        + 0.2 * (ensemble_eval ad ad_idx outcomes).relevance_mean := by
  have hctr : (ensemble_eval ad ad_idx outcomes).ctr_mean = mean (ctrsOf outcomes) := by
    simp only [ensemble_eval, ctrsOf]
    rw [ensemble_ctrs_eq]
  refine ⟨hctr, ?_⟩
  rw [hctr]
  simp only [ensemble_eval, ctrsOf, mean]
  rw [show (fun r : EvalResult =>
        r.click_probability * 0.5 + r.attention_score * 0.3 + r.relevance_score * 0.2)
      = fun r : EvalResult =>
        (fun x : EvalResult => x.click_probability * 0.5 + x.attention_score * 0.3) r
          + (fun x : EvalResult => x.relevance_score * 0.2) r from rfl]
  rw [sum_map_add]
  rw [show (fun x : EvalResult => x.click_probability * 0.5 + x.attention_score * 0.3)
      = fun r : EvalResult =>
        (fun x : EvalResult => x.click_probability * 0.5) r
          + (fun x : EvalResult => x.attention_score * 0.3) r from rfl]
  rw [sum_map_add, sum_map_mul_const, sum_map_mul_const, sum_map_mul_const]
  simp only [List.length_map]
  ring

/-- C4 witness: a single successful run with triple `(1, 0, 0)`. -/
theorem c4_ctr_mean_linearity_witness :
    (ensemble_eval "ad" 0 [some ⟨1, 0, 0⟩]).ctr_mean = mean (ctrsOf [some ⟨1, 0, 0⟩]) ∧
    (ensemble_eval "ad" 0 [some ⟨1, 0, 0⟩]).ctr_mean
      = 0.5 * (ensemble_eval "ad" 0 [some ⟨1, 0, 0⟩]).click_prob_mean
        + 0.3 * (ensemble_eval "ad" 0 [some ⟨1, 0, 0⟩]).attention_mean
        + 0.2 * (ensemble_eval "ad" 0 [some ⟨1, 0, 0⟩]).relevance_mean :=
  c4_ctr_mean_linearity "ad" 0 [some ⟨1, 0, 0⟩] (by simp)

end Critic

namespace Remixer

/-- C7: for a non-empty candidate list, a selection call whose response is
unparsable (transport failure or invalid JSON both end in the same `except`
branch) yields index 0, the first candidate's text, and the exact reasoning
string "Fallback due to error". -/
theorem c7_selection_fallback (a : String) (rest : List String) :
    select_best_ad (a :: rest) SelectOutcome.failure =
      { selected_ad_index := some 0, selected_ad_text := some a,
        reasoning := some "Fallback due to error" } := rfl

/-- C10: `remix_ads_async` with no ads raises
`ValueError("At least one ad is required")` whatever the selection oracle
would have answered — no external call is consulted — and with more than 5
ads the whole run is the run on the first 5 in input order. -/
theorem c10_empty_raises_and_first_five (ads : List String) (sel : SelectOutcome) :
    (ads = [] → remix_ads_run ads sel = Except.error "At least one ad is required") ∧
    (5 < ads.length → remix_ads_run ads sel = remix_ads_run (ads.take 5) sel) := by
  constructor
  · rintro rfl
    rfl
  · intro h5
    have hne : ads.isEmpty = false := by
      cases ads with
      | nil => simp at h5
      | cons a t => rfl
    have hlen : (ads.take 5).length = 5 := by
      rw [List.length_take]
      omega
    have hne5 : (ads.take 5).isEmpty = false := by
      cases htk : ads.take 5 with
      | nil => rw [htk] at hlen; simp at hlen
      | cons a t => rfl
    simp only [remix_ads_run, hne, hne5, Bool.false_eq_true, if_false, hlen]
    rw [if_pos h5, if_neg (by omega : ¬ (5 : ℕ) < 5)]

end Remixer

namespace Remixer

theorem rewrite_content_eq (ad : String) (vn : ℕ) (orig : Option String)
    (events : List ChatEvent) (scoring : ScoreOutcome) :
    (rewrite_ad_variant ad vn orig events scoring).content =
      (if (runLoop events 3 initState).ad_copy = "" then ad
       else (runLoop events 3 initState).ad_copy) := by
  simp only [rewrite_ad_variant]
  repeat' split
  all_goals rfl

/-- C6 (amended): the returned variant's `content` is the original candidate
text whenever the bounded loop produced no copy — in particular when every
network call fails — and is therefore non-empty whenever the original
candidate text is non-empty.  (An empty candidate text propagates: see the
counterexample.) -/
theorem c6_content_never_lost (ad : String) (vn : ℕ) (orig : Option String)
    (events : List ChatEvent) (scoring : ScoreOutcome) :
    ((runLoop events 3 initState).ad_copy = "" →
      (rewrite_ad_variant ad vn orig events scoring).content = ad) ∧
    (ad ≠ "" → (rewrite_ad_variant ad vn orig events scoring).content ≠ "") := by
  rw [rewrite_content_eq]
  constructor
  · intro h
    rw [if_pos h]
  · intro had
    by_cases h : (runLoop events 3 initState).ad_copy = ""
    · rw [if_pos h]
      exact had
    · rw [if_neg h]
      exact h

/-- C6 counterexample: with an empty candidate text and a first chat call
that raises (so the loop ends at once with no copy), the returned content is
the empty string — the claim "never returns an empty text field" fails as
stated, because the terminal fallback is the candidate text itself. -/
theorem c6_counterexample :
    (rewrite_ad_variant "" 1 none [ChatEvent.failure] ScoreOutcome.failure).content = "" := rfl

end Remixer

namespace Critic

open Helper

/-- C2 counterexample: two runs with click values 0 and 1 (attention and
relevance neutral).  `statistics.stdev` is the Bessel-corrected sample
standard deviation, so the reported `click_prob_std` is `√(1/2)`, while the
population standard deviation of the same per-run click values is
`√(1/4) = 1/2` — the two differ, refuting the claim as stated. -/
theorem c2_counterexample :
    (ensemble_eval "ad" 0 [some ⟨0, 0.5, 0.5⟩, some ⟨1, 0.5, 0.5⟩]).click_prob_std ≠
      popStd (clicksOf [some ⟨0, 0.5, 0.5⟩, some ⟨1, 0.5, 0.5⟩]) := by
  have hclicks : clicksOf [some (⟨0, 0.5, 0.5⟩ : EvalResult), some ⟨1, 0.5, 0.5⟩] = [0, 1] := by
    simp [clicksOf, eval_once]
  have h1 : (ensemble_eval "ad" 0 [some ⟨0, 0.5, 0.5⟩, some ⟨1, 0.5, 0.5⟩]).click_prob_std
      = Real.sqrt (1 / 2) := by
    have hvar : sampleVar [(0 : ℚ), 1] = 1 / 2 := by
      norm_num [sampleVar, sumSqDev, mean]
    simp only [ensemble_eval, safe_std, stdev]
    rw [show ((([some (⟨0, 0.5, 0.5⟩ : EvalResult), some ⟨1, 0.5, 0.5⟩].map eval_once).map
        EvalResult.click_probability)) = [(0 : ℚ), 1] by simp [eval_once]]
    rw [if_pos (by norm_num), hvar]
    norm_num
  have h2 : popStd (clicksOf [some (⟨0, 0.5, 0.5⟩ : EvalResult), some ⟨1, 0.5, 0.5⟩])
      = Real.sqrt (1 / 4) := by
    rw [hclicks]
    have hvar : popVar [(0 : ℚ), 1] = 1 / 4 := by
      norm_num [popVar, sumSqDev, mean]
    rw [popStd, hvar]
    norm_num
  rw [h1, h2]
  intro hcontra
  rw [Real.sqrt_inj (by norm_num) (by norm_num)] at hcontra
  norm_num at hcontra

/-- C2 (amended): the reported `click_prob_std` and `ctr_std` are the
Bessel-corrected sample standard deviation (√ of the squared deviations from
the mean divided by `n - 1`) of the per-run click values and per-run
composite CTR values, and both equal 0 when exactly one run exists (the
`safe_std` guard — no division by zero). -/
theorem c2_sample_std (ad : String) (ad_idx : ℕ)
    (outcomes : List (Option EvalResult)) (h : outcomes ≠ []) :
    ((ensemble_eval ad ad_idx outcomes).click_prob_std =
        if 1 < outcomes.length then Real.sqrt (sampleVar (clicksOf outcomes)) else 0) ∧
    ((ensemble_eval ad ad_idx outcomes).ctr_std =
        if 1 < outcomes.length then Real.sqrt (sampleVar (ctrsOf outcomes)) else 0) ∧
    (outcomes.length = 1 →
      (ensemble_eval ad ad_idx outcomes).click_prob_std = 0 ∧
      (ensemble_eval ad ad_idx outcomes).ctr_std = 0) := by
  have hc : (ensemble_eval ad ad_idx outcomes).click_prob_std =
      if 1 < outcomes.length then Real.sqrt (sampleVar (clicksOf outcomes)) else 0 := by
    simp only [ensemble_eval, safe_std, stdev, clicksOf, List.length_map]
  have hr : (ensemble_eval ad ad_idx outcomes).ctr_std =
      if 1 < outcomes.length then Real.sqrt (sampleVar (ctrsOf outcomes)) else 0 := by
    simp only [ensemble_eval, safe_std, stdev, List.length_zip, List.length_map, min_self]
    rw [ensemble_ctrs_eq]
    rfl
  refine ⟨hc, hr, ?_⟩
  intro hone
  rw [hc, hr, hone]
  norm_num

/-- C2 witness: a single run — both standard deviations are 0. -/
theorem c2_sample_std_witness :
    (((ensemble_eval "ad" 0 [some ⟨1, 0, 0⟩]).click_prob_std =
        if 1 < ([some (⟨1, 0, 0⟩ : EvalResult)]).length then
          Real.sqrt (sampleVar (clicksOf [some ⟨1, 0, 0⟩])) else 0) ∧
      ((ensemble_eval "ad" 0 [some ⟨1, 0, 0⟩]).ctr_std =
        if 1 < ([some (⟨1, 0, 0⟩ : EvalResult)]).length then
          Real.sqrt (sampleVar (ctrsOf [some ⟨1, 0, 0⟩])) else 0) ∧
      (([some (⟨1, 0, 0⟩ : EvalResult)]).length = 1 →
        (ensemble_eval "ad" 0 [some ⟨1, 0, 0⟩]).click_prob_std = 0 ∧
        (ensemble_eval "ad" 0 [some ⟨1, 0, 0⟩]).ctr_std = 0)) :=
  c2_sample_std "ad" 0 [some ⟨1, 0, 0⟩] (by simp)

end Critic

namespace Remixer

/-- C1 (amended): with a source image, a generated image and non-empty copy,
a failed comparison call gives every image in the comparison the default
score 50 with reasoning "Scoring unavailable" — but the chosen `image_uri`
falls back to the ORIGINAL image URL, not the generated one: the failure
branch of `_score_image_ctr` returns the defaulted list in input order
(original first) without sorting, and the caller takes its head. -/
theorem c1_comparison_failure (ad : String) (vn : ℕ) (uo ue : String)
    (events : List ChatEvent)
    (huo : uo ≠ "")
    (henh : (runLoop events 3 initState).enhanced_image_url = some ue)
    (hue : ue ≠ "")
    (hcopy : (if (runLoop events 3 initState).ad_copy = "" then ad
              else (runLoop events 3 initState).ad_copy) ≠ "") :
    (rewrite_ad_variant ad vn (some uo) events ScoreOutcome.failure).image_uri = some uo ∧
    (rewrite_ad_variant ad vn (some uo) events ScoreOutcome.failure).ctr_comparison =
      some { winner := "original", winner_score := 50,
             winner_reasoning := "Scoring unavailable",
             all_scores := [⟨"original", 50, "Scoring unavailable"⟩,
                            ⟨"enhanced", 50, "Scoring unavailable"⟩] } ∧
    (rewrite_ad_variant ad vn (some uo) events ScoreOutcome.failure).enhanced_image_uri
      = some ue := by
  have hscore : score_image_ctr
      [⟨some uo, "original", vn, none, none⟩, ⟨some ue, "enhanced", vn, none, none⟩]
      ScoreOutcome.failure
      = [⟨some uo, "original", vn, some 50, some "Scoring unavailable"⟩,
         ⟨some ue, "enhanced", vn, some 50, some "Scoring unavailable"⟩] := by
    simp [score_image_ctr, truthyStr, huo, hue]
  simp only [rewrite_ad_variant, henh]
  have ht : (truthyStr (some uo) && truthyStr (some ue)
      && !((if (runLoop events 3 initState).ad_copy = "" then ad
            else (runLoop events 3 initState).ad_copy) == "")) = true := by
    simp [truthyStr, huo, hue]
    exact hcopy
  rw [ht]
  simp only [if_true, hscore]
  exact ⟨trivial, by simp, trivial⟩

/-- C1 witness: one loop iteration whose tool call yields copy "copy" and the
enhanced image URL, then the comparison call fails. -/
theorem c1_comparison_failure_witness :
    (rewrite_ad_variant "Buy" 1 (some "http://orig")
        [ChatEvent.reply "" [⟨"generate_ad_image", some ⟨"prompt", "copy", "notes"⟩,
          some "http://enh"⟩] false] ScoreOutcome.failure).image_uri = some "http://orig" ∧
    (rewrite_ad_variant "Buy" 1 (some "http://orig")
        [ChatEvent.reply "" [⟨"generate_ad_image", some ⟨"prompt", "copy", "notes"⟩,
          some "http://enh"⟩] false] ScoreOutcome.failure).ctr_comparison =
      some { winner := "original", winner_score := 50,
             winner_reasoning := "Scoring unavailable",
             all_scores := [⟨"original", 50, "Scoring unavailable"⟩,
                            ⟨"enhanced", 50, "Scoring unavailable"⟩] } ∧
    (rewrite_ad_variant "Buy" 1 (some "http://orig")
        [ChatEvent.reply "" [⟨"generate_ad_image", some ⟨"prompt", "copy", "notes"⟩,
          some "http://enh"⟩] false] ScoreOutcome.failure).enhanced_image_uri
      = some "http://enh" :=
  c1_comparison_failure "Buy" 1 "http://orig" "http://enh"
    [ChatEvent.reply "" [⟨"generate_ad_image", some ⟨"prompt", "copy", "notes"⟩,
      some "http://enh"⟩] false]
    (by decide) rfl (by decide) (by decide)

/-- C1 counterexample: at the same concrete input the generated (enhanced)
image URL exists, yet the chosen `image_uri` is the original's URL, not the
generated one — the claim's fallback target is wrong. -/
theorem c1_counterexample :
    (rewrite_ad_variant "Buy" 1 (some "http://orig")
        [ChatEvent.reply "" [⟨"generate_ad_image", some ⟨"prompt", "copy", "notes"⟩,
          some "http://enh"⟩] false] ScoreOutcome.failure).enhanced_image_uri
        = some "http://enh" ∧
    (rewrite_ad_variant "Buy" 1 (some "http://orig")
        [ChatEvent.reply "" [⟨"generate_ad_image", some ⟨"prompt", "copy", "notes"⟩,
          some "http://enh"⟩] false] ScoreOutcome.failure).image_uri
        = some "http://orig" ∧
    (rewrite_ad_variant "Buy" 1 (some "http://orig")
        [ChatEvent.reply "" [⟨"generate_ad_image", some ⟨"prompt", "copy", "notes"⟩,
          some "http://enh"⟩] false] ScoreOutcome.failure).image_uri
        ≠ some "http://enh" := by
  exact ⟨rfl, rfl, by decide⟩

end Remixer

namespace Critic

open Helper

theorem predict_scores_def (uid : String) (ads : List String) (n : ℕ)
    (O : String → ℕ → Option EvalResult) :
    (predict_async uid ads n O).scores =
      sortDescBy EnsembleCTRScore.ctr_mean
        (ads.enum.map fun p => ensemble_eval_runs p.2 p.1 n (O p.2)) := rfl

theorem predict_confidence_def (uid : String) (ads : List String) (n : ℕ)
    (O : String → ℕ → Option EvalResult) :
    (predict_async uid ads n O).confidence
      = confidenceOf (predict_async uid ads n O).scores := rfl

theorem safe_std_nonneg (v : List ℚ) : 0 ≤ safe_std v := by
  unfold safe_std stdev
  split
  · exact Real.sqrt_nonneg _
  · exact le_refl 0

theorem ensemble_eval_ctr_std_nonneg (ad : String) (i : ℕ)
    (outs : List (Option EvalResult)) : 0 ≤ (ensemble_eval ad i outs).ctr_std := by
  simp only [ensemble_eval]
  exact safe_std_nonneg _

theorem predict_scores_ctr_std_nonneg (uid : String) (ads : List String) (n : ℕ)
    (O : String → ℕ → Option EvalResult) :
    ∀ s ∈ (predict_async uid ads n O).scores, 0 ≤ s.ctr_std := by
  intro s hs
  rw [predict_scores_def] at hs
  have hs' := (sortDescBy_perm _ _).mem_iff.mp hs
  rcases List.mem_map.mp hs' with ⟨p, _, rfl⟩
  exact ensemble_eval_ctr_std_nonneg _ _ _

theorem predict_scores_sorted (uid : String) (ads : List String) (n : ℕ)
    (O : String → ℕ → Option EvalResult) :
    SortedDescBy EnsembleCTRScore.ctr_mean (predict_async uid ads n O).scores := by
  rw [predict_scores_def]
  exact sortDescBy_sorted _ _

theorem predict_scores_length (uid : String) (ads : List String) (n : ℕ)
    (O : String → ℕ → Option EvalResult) :
    (predict_async uid ads n O).scores.length = ads.length := by
  rw [predict_scores_def, (sortDescBy_perm _ _).length_eq, List.length_map,
    List.enum_length]

/-- C5: the prediction's confidence is 0.7 with fewer than two candidates;
with two or more it is exactly
`min ((0.4 + 2·gap)·consistency + 0.2) 0.95` for
`gap = ctr_mean[0] - ctr_mean[1]` and
`consistency = 1 - min (2·ctr_std[0]) 0.4`; the formula is monotonically
non-decreasing in the gap for any fixed non-negative consistency; and the
confidence always lies in `[0, 0.95]` (the gap is non-negative because the
scores are sorted, and the winner's standard deviation is non-negative). -/
theorem c5_confidence_formula (uid : String) (ads : List String) (n : ℕ)
    (O : String → ℕ → Option EvalResult) (h : ads ≠ []) :
    (0 ≤ (predict_async uid ads n O).confidence ∧
      (predict_async uid ads n O).confidence ≤ 0.95) ∧
    (ads.length < 2 → (predict_async uid ads n O).confidence = 0.7) ∧
    (∀ s0 s1 rest, (predict_async uid ads n O).scores = s0 :: s1 :: rest →
      (predict_async uid ads n O).confidence
        = confFormula ((s0.ctr_mean : ℝ) - (s1.ctr_mean : ℝ))
            (1 - min (s0.ctr_std * 2) 0.4)) ∧
    (∀ g₁ g₂ c : ℝ, 0 ≤ c → g₁ ≤ g₂ → confFormula g₁ c ≤ confFormula g₂ c) := by
  have hmono : ∀ g₁ g₂ c : ℝ, 0 ≤ c → g₁ ≤ g₂ → confFormula g₁ c ≤ confFormula g₂ c := by
    intro g₁ g₂ c hc hg
    unfold confFormula
    refine min_le_min ?_ (le_refl _)
    have hmul := mul_le_mul_of_nonneg_right
      (show (0.4 : ℝ) + g₁ * 2 ≤ 0.4 + g₂ * 2 by linarith) hc
    linarith
  have hformula : ∀ s0 s1 rest, (predict_async uid ads n O).scores = s0 :: s1 :: rest →
      (predict_async uid ads n O).confidence
        = confFormula ((s0.ctr_mean : ℝ) - (s1.ctr_mean : ℝ))
            (1 - min (s0.ctr_std * 2) 0.4) := by
    intro s0 s1 rest hsc
    rw [predict_confidence_def, hsc]
    simp only [confidenceOf, confFormula]
    push_cast
    ring_nf
  refine ⟨?_, ?_, hformula, hmono⟩
  · rcases hsc : (predict_async uid ads n O).scores with _ | ⟨s0, _ | ⟨s1, rest⟩⟩
    · rw [predict_confidence_def, hsc]
      norm_num [confidenceOf]
    · rw [predict_confidence_def, hsc]
      norm_num [confidenceOf]
    · have hgap : s1.ctr_mean ≤ s0.ctr_mean := by
        have hsorted := predict_scores_sorted uid ads n O
        rw [hsc] at hsorted
        exact (List.pairwise_cons.mp hsorted).1 s1 (List.mem_cons_self _ _)
      have hstd : 0 ≤ s0.ctr_std := by
        refine predict_scores_ctr_std_nonneg uid ads n O s0 ?_
        rw [hsc]
        exact List.mem_cons_self _ _
      rw [hformula s0 s1 rest hsc]
      unfold confFormula
      have hgapR : (0 : ℝ) ≤ (s0.ctr_mean : ℝ) - (s1.ctr_mean : ℝ) := by
        have := (Rat.cast_le (K := ℝ)).mpr hgap
        linarith
      have hminle : min (s0.ctr_std * 2) 0.4 ≤ (0.4 : ℝ) := min_le_right _ _
      have hminnn : (0 : ℝ) ≤ min (s0.ctr_std * 2) 0.4 :=
        le_min (by linarith) (by norm_num)
      constructor
      · have hprod : (0 : ℝ) ≤
            (0.4 + ((s0.ctr_mean : ℝ) - (s1.ctr_mean : ℝ)) * 2)
              * (1 - min (s0.ctr_std * 2) 0.4) :=
          mul_nonneg (by linarith) (by linarith)
        exact le_min (by linarith) (by norm_num)
      · exact min_le_right _ _
  · intro hlen
    have hslen := predict_scores_length uid ads n O
    rcases hsc : (predict_async uid ads n O).scores with _ | ⟨s0, _ | ⟨s1, rest⟩⟩
    · rw [predict_confidence_def, hsc]
      rfl
    · rw [predict_confidence_def, hsc]
      rfl
    · exfalso
      rw [hsc] at hslen
      simp only [List.length_cons] at hslen
      omega

/-- C5 witness: one candidate, one run, the run failing. -/
theorem c5_confidence_formula_witness :
    (0 ≤ (predict_async "u" ["A"] 1 fun _ _ => none).confidence ∧
      (predict_async "u" ["A"] 1 fun _ _ => none).confidence ≤ 0.95) ∧
    ((["A"] : List String).length < 2 →
      (predict_async "u" ["A"] 1 fun _ _ => none).confidence = 0.7) ∧
    (∀ s0 s1 rest, (predict_async "u" ["A"] 1 fun _ _ => none).scores = s0 :: s1 :: rest →
      (predict_async "u" ["A"] 1 fun _ _ => none).confidence
        = confFormula ((s0.ctr_mean : ℝ) - (s1.ctr_mean : ℝ))
            (1 - min (s0.ctr_std * 2) 0.4)) ∧
    (∀ g₁ g₂ c : ℝ, 0 ≤ c → g₁ ≤ g₂ → confFormula g₁ c ≤ confFormula g₂ c) :=
  c5_confidence_formula "u" ["A"] 1 (fun _ _ => none) (by simp)

end Critic

namespace Critic

open Helper

/-- The ranking-relevant projection of a score: its ad text and mean CTR. -/
def textCtr (s : EnsembleCTRScore) : String × ℚ := (s.ad_text, s.ctr_mean)

/-- The mean CTR a candidate text receives from its ensemble, which depends
only on the text (through the oracle) and the run count — not on the
candidate's position in the input list. -/
noncomputable def candCtr (n : ℕ) (O : String → ℕ → Option EvalResult)
    (a : String) : ℚ :=
  (ensemble_eval_runs a 0 n (O a)).ctr_mean

theorem predict_scores_textCtr (uid : String) (ads : List String) (n : ℕ)
    (O : String → ℕ → Option EvalResult) :
    (predict_async uid ads n O).scores.map textCtr
      = sortDescBy Prod.snd (ads.map fun a => (a, candCtr n O a)) := by
  rw [predict_scores_def]
  rw [sortDescBy_map EnsembleCTRScore.ctr_mean Prod.snd textCtr (fun _ => rfl)]
  congr 1
  rw [List.map_map]
  have hfun : (textCtr ∘ fun p : ℕ × String => ensemble_eval_runs p.2 p.1 n (O p.2))
      = (fun a => (a, candCtr n O a)) ∘ Prod.snd := rfl
  rw [hfun, ← List.map_map, List.enum_map_snd]

/-- Strict descending comparison on text/CTR pairs (vacuously antisymmetric). -/
def pairCtrLt (x y : String × ℚ) : Prop := y.2 < x.2

instance : IsAntisymm (String × ℚ) pairCtrLt :=
  ⟨fun _ _ h1 h2 => absurd (lt_trans h1 h2) (lt_irrefl _)⟩

theorem sortDescBy_pairs_unique (q₁ q₂ : List (String × ℚ))
    (hperm : q₁.Perm q₂)
    (hdist : (q₁.map Prod.snd).Pairwise fun a b => a ≠ b) :
    sortDescBy Prod.snd q₁ = sortDescBy Prod.snd q₂ := by
  have hp : (sortDescBy Prod.snd q₁).Perm (sortDescBy Prod.snd q₂) :=
    (sortDescBy_perm _ _).trans (hperm.trans (sortDescBy_perm _ q₂).symm)
  have hdist' : q₁.Pairwise fun x y => x.2 ≠ y.2 := List.pairwise_map.mp hdist
  have hne1 : (sortDescBy Prod.snd q₁).Pairwise fun x y => x.2 ≠ y.2 :=
    ((sortDescBy_perm Prod.snd q₁).pairwise_iff fun {x y} h => Ne.symm h).mpr hdist'
  have hne2 : (sortDescBy Prod.snd q₂).Pairwise fun x y => x.2 ≠ y.2 := by
    refine ((sortDescBy_perm Prod.snd q₂).pairwise_iff fun {x y} h => Ne.symm h).mpr ?_
    exact (hperm.pairwise_iff fun {x y} h => Ne.symm h).mp hdist'
  have hs1 : (sortDescBy Prod.snd q₁).Pairwise pairCtrLt :=
    ((sortDescBy_sorted Prod.snd q₁).and hne1).imp
      fun {a b} hab => lt_of_le_of_ne hab.1 (Ne.symm hab.2)
  have hs2 : (sortDescBy Prod.snd q₂).Pairwise pairCtrLt :=
    ((sortDescBy_sorted Prod.snd q₂).and hne2).imp
      fun {a b} hab => lt_of_le_of_ne hab.1 (Ne.symm hab.2)
  exact List.eq_of_perm_of_sorted hp hs1 hs2

theorem headI_map_textCtr (l : List EnsembleCTRScore) :
    (l.map textCtr).headI.1 = l.headI.ad_text := by
  cases l with
  | nil => rfl
  | cons a t => rfl

/-- C8 (amended): `Prediction.scores` is always sorted descending by
`ctr_mean`, and `best_ad_index`/`best_ad_text` come from its first entry.
The ranking — the sequence of (text, mean CTR) pairs — is independent of the
candidates' input order whenever their mean CTRs are pairwise distinct; with
ties, the stable sort keeps input order, so permuting tied candidates
permutes the ranking (see the counterexample). -/
theorem c8_ranking_sorted_and_order_independent (uid : String) (ads : List String)
    (n : ℕ) (O : String → ℕ → Option EvalResult) :
    SortedDescBy EnsembleCTRScore.ctr_mean (predict_async uid ads n O).scores ∧
    (predict_async uid ads n O).best_ad_index
      = (predict_async uid ads n O).scores.headI.ad_index ∧
    (predict_async uid ads n O).best_ad_text
      = (predict_async uid ads n O).scores.headI.ad_text ∧
    (∀ uid₂ ads₂, ads.Perm ads₂ →
      ((ads.map (candCtr n O)).Pairwise fun a b => a ≠ b) →
      (predict_async uid ads n O).scores.map textCtr
        = (predict_async uid₂ ads₂ n O).scores.map textCtr ∧
      (predict_async uid ads n O).best_ad_text
        = (predict_async uid₂ ads₂ n O).best_ad_text) := by
  refine ⟨predict_scores_sorted uid ads n O, rfl, rfl, ?_⟩
  intro uid₂ ads₂ hperm hdist
  have hmap : (predict_async uid ads n O).scores.map textCtr
      = (predict_async uid₂ ads₂ n O).scores.map textCtr := by
    rw [predict_scores_textCtr, predict_scores_textCtr]
    apply sortDescBy_pairs_unique
    · exact hperm.map _
    · rw [List.map_map]
      exact hdist
  refine ⟨hmap, ?_⟩
  calc (predict_async uid ads n O).best_ad_text
      = ((predict_async uid ads n O).scores.map textCtr).headI.1 :=
        (headI_map_textCtr _).symm
    _ = ((predict_async uid₂ ads₂ n O).scores.map textCtr).headI.1 := by rw [hmap]
    _ = (predict_async uid₂ ads₂ n O).best_ad_text := headI_map_textCtr _

/-- C8 counterexample: two candidates whose every run fails, so both have
mean CTR `1/2` — a tie.  The stable descending sort keeps input order, so
swapping the two candidates swaps the returned ranking and the winning text:
the ranking is not independent of the input order. -/
theorem c8_counterexample :
    (["A", "B"] : List String).Perm ["B", "A"] ∧
    (predict_async "u" ["A", "B"] 1 fun _ _ => none).scores.map textCtr
      = [("A", 1/2), ("B", 1/2)] ∧
    (predict_async "u" ["B", "A"] 1 fun _ _ => none).scores.map textCtr
      = [("B", 1/2), ("A", 1/2)] ∧
    (predict_async "u" ["A", "B"] 1 fun _ _ => none).best_ad_text = "A" ∧
    (predict_async "u" ["B", "A"] 1 fun _ _ => none).best_ad_text = "B" := by
  have hc : ∀ a : String, candCtr 1 (fun _ _ => none) a = 1/2 := by
    intro a
    simp [candCtr, ensemble_eval_runs, ensemble_eval, eval_once, neutralResult, mean]
    norm_num
  have hAB : (predict_async "u" ["A", "B"] 1 fun _ _ => none).scores.map textCtr
      = [("A", 1/2), ("B", 1/2)] := by
    rw [predict_scores_textCtr]
    simp [hc, sortDescBy, insertDescBy]
  have hBA : (predict_async "u" ["B", "A"] 1 fun _ _ => none).scores.map textCtr
      = [("B", 1/2), ("A", 1/2)] := by
    rw [predict_scores_textCtr]
    simp [hc, sortDescBy, insertDescBy]
  refine ⟨List.Perm.swap "B" "A" [], hAB, hBA, ?_, ?_⟩
  · have h := headI_map_textCtr (predict_async "u" ["A", "B"] 1 fun _ _ => none).scores
    rw [hAB] at h
    exact h.symm
  · have h := headI_map_textCtr (predict_async "u" ["B", "A"] 1 fun _ _ => none).scores
    rw [hBA] at h
    exact h.symm

end Critic
